import Mathlib

/-!
Shallow embedding of the ingestion pipeline of the chest repository
(src/chest/src/bin/chest.rs, with the connection-manager variant in
src/src/bin/chest.rs).  Pure fragments of the Rust code (the event
classifier, the record construction, the subscription-message builders)
become Lean functions; the per-session read loop becomes a recursive
function over the list of inbound websocket messages; the SQLite table
with its event_id primary key and the INSERT OR IGNORE statement become
an insert-if-absent operation on a list of records.
-/

namespace Chest

/-- Nostr event structure (struct NostrEvent, chest.rs lines 43-52). -/
structure NostrEvent where
  id : String
  pubkey : String
  created_at : Nat
  kind : Nat
  tags : List (List String)
  content : String
  sig : String
deriving DecidableEq, Repr

/-- Database record structure for events (struct DbEvent, chest.rs lines 56-67).
The tags field holds the JSON serialization of the tag list, as in the source. -/
structure DbEvent where
  event_id : String
  pubkey : String
  created_at : Int
  kind : Int
  content : String
  sig : String
  tags : String
  folder : String
  ref_event : Option String
deriving DecidableEq, Repr

/-- Hex digit used by the JSON string escaper (lowercase, as serde_json emits). -/
def hex_digit (n : Nat) : Char :=
  if n < 10 then Char.ofNat (48 + n) else Char.ofNat (87 + n)

/-- Escaping of one character inside a JSON string, following serde_json:
quote and backslash are escaped, the named control characters get their
short escapes, the remaining control characters a \u00XX escape. -/
def escape_json_char (c : Char) : String :=
  if c = '"' then "\\\""
  else if c = '\\' then "\\\\"
  else if c = '\x08' then "\\b"
  else if c = '\t' then "\\t"
  else if c = '\n' then "\\n"
  else if c = '\x0c' then "\\f"
  else if c = '\r' then "\\r"
  else if c.toNat < 32 then
    "\\u00" ++ String.mk [hex_digit (c.toNat / 16), hex_digit (c.toNat % 16)]
  else String.mk [c]

/-- JSON serialization of a string, as serde_json::to_string produces. -/
def encode_json_string (s : String) : String :=
  "\"" ++ String.join (s.toList.map escape_json_char) ++ "\""

/-- JSON serialization of a Vec of Strings (compact, comma separated). -/
def encode_string_list (xs : List String) : String :=
  "[" ++ String.intercalate "," (xs.map encode_json_string) ++ "]"

/-- JSON serialization of the tag list, modelling
serde_json::to_string(&event.tags) at chest.rs line 169. -/
def encode_tags (tags : List (List String)) : String :=
  "[" ++ String.intercalate "," (tags.map encode_string_list) ++ "]"

/-- The Rust cast `as i64` applied to a u64 value (two's-complement reinterpretation),
used for created_at and kind in the DbEvent construction. -/
def u64_as_i64 (n : Nat) : Int :=
  if n < 2 ^ 63 then (n : Int) else (n : Int) - 2 ^ 64

/-- Result of the kind-dispatching classifier at chest.rs lines 112-159:
either a storage folder together with the optional referenced event, or a
drop (the `continue` branches of the Rust match). -/
inductive ClassifyResult where
  | store (folder : String) (ref_event : Option String)
  | drop
deriving DecidableEq, Repr

/-- The tag predicate `t.get(0).map(|s| s == "e").unwrap_or(false)` used in
every classifier branch that inspects tags. -/
def isETag (t : List String) : Bool :=
  ((t.get? 0).map (fun s => s == "e")).getD false

/-- The search `event.tags.iter().find(...)` for the first "e"-named tag. -/
def findETag (tags : List (List String)) : Option (List String) :=
  tags.find? isETag

/-- Event classifier of the primary ingestion path: the Rust match on
event.kind at chest.rs lines 112-159 determining (folder, ref_event). -/
def classify (kind : Nat) (tags : List (List String)) : ClassifyResult :=
  if kind = 0 then ClassifyResult.store "users" none
  else if kind = 1 then
    match findETag tags with
    | some tag =>
      match tag.get? 1 with
      | some ref_event_id => ClassifyResult.store "replies" (some ref_event_id)
      | none => ClassifyResult.store "notes" none
    | none => ClassifyResult.store "notes" none
  else if kind = 7 then
    match findETag tags with
    | some tag =>
      match tag.get? 1 with
      | some ref_event_id => ClassifyResult.store "reactions" (some ref_event_id)
      | none => ClassifyResult.drop
    | none => ClassifyResult.drop
  else if kind = 9734 ∨ kind = 9735 then
    ClassifyResult.store "zaps" ((findETag tags).bind (fun tag => tag.get? 1))
  else if kind = 30023 ∨ kind = 30024 then
    ClassifyResult.store "long" none
  else ClassifyResult.drop

/-- Folder selection of the dynamic (secondary) sessions: the Rust match on
event.kind at chest.rs lines 292-296 and, identically, lines 385-389. -/
def dynamic_folder (kind : Nat) : Option String :=
  if kind = 7 then some "reactions"
  else if kind = 9734 ∨ kind = 9735 then some "zaps"
  else none

/-- Construction of the DbEvent from a received event plus the classifier
output (chest.rs lines 162-172; the dynamic variants at 299-309 and 392-402
build the same record with their own folder and reference). -/
def mk_db_event (ev : NostrEvent) (folder : String) (ref_event : Option String) : DbEvent :=
  { event_id := ev.id
    pubkey := ev.pubkey
    created_at := u64_as_i64 ev.created_at
    kind := u64_as_i64 ev.kind
    content := ev.content
    sig := ev.sig
    tags := encode_tags ev.tags
    folder := folder
    ref_event := ref_event }

/-- The events table: rows keyed by event_id (TEXT PRIMARY KEY, chest.rs
lines 567-579), in insertion order. -/
abbrev Store := List DbEvent

/-- Whether a row with the given event_id is present (the primary-key
uniqueness check the storage engine performs). -/
def containsId (s : Store) (id : String) : Bool :=
  s.any (fun r => r.event_id == id)

/-- The stored row under an event_id, if any. -/
def lookupId (s : Store) (id : String) : Option DbEvent :=
  s.find? (fun r => r.event_id == id)

/-- INSERT OR IGNORE INTO events (chest.rs lines 175-191) against the
event_id primary key: a duplicate identifier leaves the table unchanged and
inserts nothing; a fresh identifier appends the row.  The Bool reports
whether a row was newly inserted. -/
def put (s : Store) (r : DbEvent) : Store × Bool :=
  if containsId s r.event_id then (s, false) else (s ++ [r], true)

/-- Folding a sequence of inserts over the table. -/
def putAll (s : Store) (rs : List DbEvent) : Store :=
  rs.foldl (fun acc r => (put acc r).fst) s

/-- JSON values as serde_json::Value models them for this pipeline
(numbers restricted to integers, which covers every number the pipeline
builds or reads). -/
inductive Json where
  | str (s : String)
  | num (n : Int)
  | bool (b : Bool)
  | null
  | arr (items : List Json)
  | obj (fields : List (String × Json))

/-- Field lookup on a JSON object, as serde uses it to read a struct field. -/
def Json.getField (j : Json) (key : String) : Option Json :=
  match j with
  | .obj fields => ((fields.find? (fun f => f.fst == key)).map (fun f => f.snd))
  | _ => none

/-- Deserialization of a JSON value into a String field. -/
def Json.as_str : Json → Option String
  | .str s => some s
  | _ => none

/-- Deserialization of a JSON value into a u64 field. -/
def Json.as_u64 : Json → Option Nat
  | .num n => if 0 ≤ n ∧ n < 2 ^ 64 then some n.toNat else none
  | _ => none

/-- Deserialization of a JSON value into a Vec of Strings (one tag). -/
def Json.as_string_list : Json → Option (List String)
  | .arr items => items.mapM Json.as_str
  | _ => none

/-- Deserialization of a JSON value into the tag list. -/
def Json.as_tag_list : Json → Option (List (List String))
  | .arr items => items.mapM Json.as_string_list
  | _ => none

/-- serde_json::from_value for NostrEvent (chest.rs line 103): every field
must be present with the right type, extra fields are ignored; a failure
means the whole deserialization fails. -/
def NostrEvent.fromJson (j : Json) : Option NostrEvent := do
  let id ← (j.getField "id").bind Json.as_str
  let pubkey ← (j.getField "pubkey").bind Json.as_str
  let created_at ← (j.getField "created_at").bind Json.as_u64
  let kind ← (j.getField "kind").bind Json.as_u64
  let tags ← (j.getField "tags").bind Json.as_tag_list
  let content ← (j.getField "content").bind Json.as_str
  let sig ← (j.getField "sig").bind Json.as_str
  some { id := id, pubkey := pubkey, created_at := created_at, kind := kind,
         tags := tags, content := content, sig := sig }

/-- The initial subscription request at chest.rs line 87:
a REQ array whose filter object restricts to the one event kind. -/
def initial_req_message (subscription_id : String) (event_kind : Nat) : Json :=
  Json.arr [Json.str "REQ", Json.str subscription_id,
    Json.obj [("kinds", Json.arr [Json.num (Int.ofNat event_kind)])]]

/-- The reference-scoped dynamic subscription request at chest.rs
lines 265-269 and, identically, lines 358-362: kinds fixed to
7, 9734, 9735 and the "#e" constraint holding exactly the target id. -/
def dynamic_req_message (subscription_id : String) (target_id : String) : Json :=
  Json.arr [Json.str "REQ", Json.str subscription_id,
    Json.obj [("kinds", Json.arr [Json.num 7, Json.num 9734, Json.num 9735]),
              ("#e", Json.arr [Json.str target_id])]]

/-- One item produced by the websocket read stream: a text frame carrying
either a parsed JSON payload or (for payloads that are not valid JSON)
nothing; a non-text frame (binary, ping, pong, close); or a transport
error yielded by the stream. -/
inductive WsMessage where
  | text (payload : Option Json)
  | control
  | transport_err

/-- One iteration of the read loop up to event extraction (chest.rs lines
94-103): transport errors and invalid JSON propagate out of the loop via
the question-mark operator, as does a failed NostrEvent deserialization of
the third element of an EVENT-shaped array; a non-text frame, a non-array
payload, a short array, or a non-EVENT array is skipped. -/
def decode_relay_message : WsMessage → Except Unit (Option NostrEvent)
  | .transport_err => .error ()
  | .control => .ok none
  | .text none => .error ()
  | .text (some v) =>
    match v with
    | .arr (head :: _ :: third :: _) =>
      match head with
      | .str tag0 =>
        if tag0 = "EVENT" then
          match NostrEvent.fromJson third with
          | some ev => .ok (some ev)
          | none => .error ()
        else .ok none
      | _ => .ok none
    | .arr _ => .ok none
    | _ => .ok none

/-- Whether a message terminates the read loop (its decoding hits one of the
question-mark operators). -/
def decode_fatal (m : WsMessage) : Bool :=
  match decode_relay_message m with
  | .error _ => true
  | .ok _ => false

/-- State threaded through a session's read loop: the shared events table and
the list of note-or-long identifiers for which a dynamic subscription task
has been spawned by this session (the tokio::spawn calls at chest.rs
lines 199-217 and 221-239). -/
structure RunState where
  store : Store
  spawned : List String
deriving DecidableEq, Repr

/-- How a session's read loop ended: the stream was exhausted (the relay
closed the connection normally), or an error propagated out of the loop. -/
inductive SessionEnd where
  | done
  | errored
deriving DecidableEq, Repr

/-- Final observation of one session: table contents, spawned dynamic
subscriptions, and how the loop ended. -/
structure RunResult where
  store : Store
  spawned : List String
  ended : SessionEnd
deriving DecidableEq, Repr

/-- The record the primary pipeline persists for an event, if any:
classifier output turned into a DbEvent (chest.rs lines 112-172). -/
def primaryRecord (ev : NostrEvent) : Option DbEvent :=
  match classify ev.kind ev.tags with
  | ClassifyResult.drop => none
  | ClassifyResult.store folder ref_event => some (mk_db_event ev folder ref_event)

/-- The identifiers for which the primary loop spawns dynamic subscription
tasks after handling an event: chest.rs lines 199-217 spawn for kind 1,
lines 221-239 for kinds 30023 and 30024. -/
def spawn_targets (ev : NostrEvent) : List String :=
  (if ev.kind = 1 then [ev.id] else []) ++
  (if ev.kind = 30023 ∨ ev.kind = 30024 then [ev.id] else [])

/-- Handling of one deserialized event by the primary loop (chest.rs lines
112-239): classify, drop on classification failure, otherwise insert the
record (an insert whose execution fails leaves the table unchanged and the
loop continues), then spawn dynamic subscriptions by kind.  The io flag is
true when the insert statement executes without an error. -/
def handle_event_primary (io_ok : Bool) (st : RunState) (ev : NostrEvent) : RunState :=
  match primaryRecord ev with
  | none => st
  | some r =>
    { store := if io_ok then (put st.store r).fst else st.store
      spawned := st.spawned ++ spawn_targets ev }

/-- The record a dynamic session persists for an event, if any (chest.rs
lines 292-309 and 385-402): folder by kind, reference hardwired to the
session's target identifier. -/
def dynamicRecord (target : String) (ev : NostrEvent) : Option DbEvent :=
  (dynamic_folder ev.kind).map (fun folder => mk_db_event ev folder (some target))

/-- Handling of one deserialized event by a dynamic session's loop
(chest.rs lines 292-332 and 385-425): reaction and zap kinds are stored
with the target as reference, every other kind is skipped, and no further
subscription task is ever spawned. -/
def handle_event_dynamic (target : String) (io_ok : Bool) (st : RunState)
    (ev : NostrEvent) : RunState :=
  match dynamicRecord target ev with
  | none => st
  | some r =>
    { st with store := if io_ok then (put st.store r).fst else st.store }

/-- The read loop shared by all session functions: processes inbound
messages in order, stops with an error when a message's decoding fails,
and otherwise applies the handler.  io gives, per message position, whether
the insert statement issued while handling that message (if any) executes
without an error. -/
def listen_loop (handle : Bool → RunState → NostrEvent → RunState)
    (ioSeq : Nat → Bool) (st : RunState) : List WsMessage → RunResult
  | [] => { store := st.store, spawned := st.spawned, ended := SessionEnd.done }
  | m :: ms =>
    match decode_relay_message m with
    | .error _ => { store := st.store, spawned := st.spawned, ended := SessionEnd.errored }
    | .ok none => listen_loop handle (fun n => ioSeq (n + 1)) st ms
    | .ok (some ev) => listen_loop handle (fun n => ioSeq (n + 1)) (handle (ioSeq 0) st ev) ms

/-- The read loop of listen_to_relay_for_kind (chest.rs lines 94-243). -/
def listen_to_relay_for_kind (ioSeq : Nat → Bool) (st : RunState)
    (msgs : List WsMessage) : RunResult :=
  listen_loop handle_event_primary ioSeq st msgs

/-- The read loop of dynamic_listen_to_relay_for_note (chest.rs lines
276-336) and of the textually identical dynamic_listen_to_relay_for_long
(lines 369-429), for a session whose subscription targets the given id. -/
def dynamic_listen_to_relay (target : String) (ioSeq : Nat → Bool) (st : RunState)
    (msgs : List WsMessage) : RunResult :=
  listen_loop (handle_event_dynamic target) ioSeq st msgs

/-- Configuration structures (chest.rs lines 13-40). -/
structure ServerConfig where
  bind_address : String
deriving DecidableEq, Repr

structure RelayConfig where
  urls : List String
deriving DecidableEq, Repr

structure EventConfig where
  kinds : List Nat
deriving DecidableEq, Repr

structure DatabaseConfig where
  path : String
deriving DecidableEq, Repr

structure AppConfig where
  server : ServerConfig
  relays : RelayConfig
  event : EventConfig
  database : DatabaseConfig
deriving DecidableEq, Repr

/-- The hardcoded list of globally subscribed kinds in main (chest.rs line
586; the manager variant hardcodes the same list at its line 317). -/
def global_event_kinds : List Nat := [1, 30023, 30024]

/-- The (relay URL, event kind) pairs for which main spawns a
listen_to_relay_for_kind task (chest.rs lines 589-604); the manager
variant sends one subscription per identical pair at its lines 323-335.
The configuration's event.kinds field is not consulted. -/
def initial_subscriptions (config : AppConfig) : List (String × Nat) :=
  config.relays.urls.flatMap (fun relay_url =>
    global_event_kinds.map (fun event_kind => (relay_url, event_kind)))

/-! Store lemmas. -/

theorem containsId_append (s t : Store) (id : String) :
    containsId (s ++ t) id = (containsId s id || containsId t id) := by
  simp [containsId, List.any_append]

theorem lookupId_isSome_of_contains (s : Store) (id : String)
    (h : containsId s id = true) : (lookupId s id).isSome := by
  simp only [containsId, List.any_eq_true] at h
  simp only [lookupId, List.find?_isSome]
  exact h

theorem lookupId_append_left (s t : Store) (id : String)
    (h : containsId s id = true) : lookupId (s ++ t) id = lookupId s id := by
  have hs := lookupId_isSome_of_contains s id h
  unfold lookupId at *
  rw [List.find?_append]
  cases hl : List.find? (fun r => r.event_id == id) s with
  | some a => rfl
  | none => rw [hl] at hs; simp at hs

theorem containsId_put (s : Store) (r : DbEvent) (id : String)
    (h : containsId s id = true) : containsId (put s r).fst id = true := by
  unfold put
  split
  · exact h
  · rw [containsId_append, h, Bool.true_or]

theorem lookupId_put (s : Store) (r : DbEvent) (id : String)
    (h : containsId s id = true) : lookupId (put s r).fst id = lookupId s id := by
  unfold put
  split
  · rfl
  · exact lookupId_append_left s [r] id h

theorem containsId_putAll (s : Store) (rs : List DbEvent) (id : String)
    (h : containsId s id = true) : containsId (putAll s rs) id = true := by
  induction rs generalizing s with
  | nil => exact h
  | cons r rs ih => exact ih (put s r).fst (containsId_put s r id h)

theorem lookupId_putAll (s : Store) (rs : List DbEvent) (id : String)
    (h : containsId s id = true) : lookupId (putAll s rs) id = lookupId s id := by
  induction rs generalizing s with
  | nil => rfl
  | cons r rs ih =>
    have step : putAll s (r :: rs) = putAll (put s r).fst rs := rfl
    rw [step, ih (put s r).fst (containsId_put s r id h), lookupId_put s r id h]

theorem lookupId_append_fresh (s : Store) (r : DbEvent)
    (h : containsId s r.event_id = false) :
    lookupId (s ++ [r]) r.event_id = some r := by
  unfold lookupId
  rw [List.find?_append]
  have hnone : List.find? (fun x => x.event_id == r.event_id) s = none := by
    apply List.find?_eq_none.mpr
    intro x hx
    have h' : ∀ x ∈ s, ¬x.event_id = r.event_id := by
      simpa [containsId, List.any_eq_true] using h
    simpa using h' x hx
  rw [hnone]
  simp [List.find?]

/-- C4: storing is idempotent per identifier.  Inserting a record with a
fresh identifier appends it and reports true; afterwards, however many
further inserts happen, another put with the same identifier returns the
table unchanged together with false, and the row stored under that
identifier is still the first record. -/
theorem put_first_writer_wins (s : Store) (r r' : DbEvent) (rs : List DbEvent)
    (hfresh : containsId s r.event_id = false)
    (hid : r'.event_id = r.event_id) :
    put s r = (s ++ [r], true) ∧
    put (putAll (s ++ [r]) rs) r' = (putAll (s ++ [r]) rs, false) ∧
    lookupId (putAll (s ++ [r]) rs) r.event_id = some r := by
  have hcontains : containsId (s ++ [r]) r.event_id = true := by
    rw [containsId_append]
    simp [containsId]
  refine ⟨?_, ?_, ?_⟩
  · simp [put, hfresh]
  · have h2 := containsId_putAll (s ++ [r]) rs r.event_id hcontains
    rw [← hid] at h2
    simp [put, h2]
  · rw [lookupId_putAll (s ++ [r]) rs r.event_id hcontains,
        lookupId_append_fresh s r hfresh]

/-- Record used by the C4 witness. -/
def recA : DbEvent :=
  { event_id := "e1", pubkey := "p1", created_at := 100, kind := 1,
    content := "hi", sig := "s", tags := "[]", folder := "notes", ref_event := none }

/-- A different record carrying the same identifier as recA. -/
def recB : DbEvent :=
  { recA with content := "resubmitted" }

/-- Witness for C4 at concrete inputs: empty table, then recA, then recB twice. -/
theorem put_first_writer_wins_witness :
    containsId [] recA.event_id = false ∧ recB.event_id = recA.event_id ∧
    (put [] recA = ([] ++ [recA], true) ∧
     put (putAll ([] ++ [recA]) [recB]) recB = (putAll ([] ++ [recA]) [recB], false) ∧
     lookupId (putAll ([] ++ [recA]) [recB]) recA.event_id = some recA) :=
  ⟨by decide, by decide,
    put_first_writer_wins [] recA recB [recB] (by decide) (by decide)⟩

/-! Lemmas on the search for the first "e"-named tag. -/

theorem findETag_cons_false (a : List String) (l : List (List String))
    (h : isETag a = false) : findETag (a :: l) = findETag l := by
  simp [findETag, List.find?, h]

theorem findETag_cons_true (a : List String) (l : List (List String))
    (h : isETag a = true) : findETag (a :: l) = some a := by
  simp [findETag, List.find?, h]

theorem findETag_skip_front (pre rest : List (List String))
    (h : ∀ u ∈ pre, isETag u = false) :
    findETag (pre ++ rest) = findETag rest := by
  induction pre with
  | nil => rfl
  | cons a l ih =>
    rw [List.cons_append, findETag_cons_false a (l ++ rest) (h a (by simp))]
    exact ih (fun u hu => h u (by simp [hu]))

theorem findETag_eq_none (pre : List (List String))
    (h : ∀ u ∈ pre, isETag u = false) : findETag pre = none := by
  have := findETag_skip_front pre [] h
  simpa using this

/-- C5 counterexample: the claim fails as stated.  The kind-1 event whose
tag list is [["e"], ["e", "x"]] contains a tag whose first element is "e"
and whose second element is "x", yet classification yields (notes, none),
not (replies, "x"): the classifier only consults the FIRST "e"-named tag,
which here has no second element. -/
theorem note_classification_counterexample :
    classify 1 [["e"], ["e", "x"]] = ClassifyResult.store "notes" none ∧
    ["e", "x"] ∈ [["e"], ["e", "x"]] ∧
    ["e", "x"].get? 0 = some "e" ∧ ["e", "x"].get? 1 = some "x" := by decide

/-- C5 amended: kind-1 classification is decided by the first tag whose
first element is "e".  If that tag carries a second element X the event is
classified (replies, X); if it carries none, or when no "e"-named tag
exists at all, the event is classified (notes, none). -/
theorem classify_note_first_e_tag (pre post : List (List String))
    (t : List String) (x : String)
    (hpre : ∀ u ∈ pre, isETag u = false) (ht : isETag t = true) :
    (t.get? 1 = some x →
      classify 1 (pre ++ t :: post) = ClassifyResult.store "replies" (some x)) ∧
    (t.get? 1 = none →
      classify 1 (pre ++ t :: post) = ClassifyResult.store "notes" none) ∧
    classify 1 pre = ClassifyResult.store "notes" none := by
  have hfind : findETag (pre ++ t :: post) = some t := by
    rw [findETag_skip_front pre (t :: post) hpre, findETag_cons_true t post ht]
  have hnone := findETag_eq_none pre hpre
  refine ⟨?_, ?_, ?_⟩
  · intro hx; rw [List.get?_eq_getElem?] at hx; simp [classify, hfind, hx]
  · intro hx; rw [List.get?_eq_getElem?] at hx; simp [classify, hfind, hx]
  · simp [classify, hnone]

/-- Witness for C5 at concrete inputs: one non-"e" tag before the "e" tag. -/
theorem classify_note_first_e_tag_witness :
    (∀ u ∈ [["p", "q"]], isETag u = false) ∧ isETag ["e", "x"] = true ∧
    ((["e", "x"].get? 1 = some "x" →
        classify 1 ([["p", "q"]] ++ ["e", "x"] :: []) =
          ClassifyResult.store "replies" (some "x")) ∧
     (["e", "x"].get? 1 = none →
        classify 1 ([["p", "q"]] ++ ["e", "x"] :: []) =
          ClassifyResult.store "notes" none) ∧
     classify 1 [["p", "q"]] = ClassifyResult.store "notes" none) :=
  ⟨by decide, by decide,
    classify_note_first_e_tag [["p", "q"]] [] ["e", "x"] "x" (by decide) (by decide)⟩

/-- Kind-7 event without any tag, used by the C2 theorems. -/
def ev7_bare : NostrEvent :=
  { id := "e3", pubkey := "p", created_at := 0, kind := 7, tags := [],
    content := "+", sig := "s" }

/-- C2 counterexample: the claim fails as stated.  On the primary path the
kind-7 event with tags [["e"], ["e", "x"]] has a tag whose first element is
"e" and whose second element is "x", yet it is dropped (only the FIRST
"e"-named tag is consulted).  And on the dynamic ingestion path a kind-7
event with no "e" tag at all is stored rather than dropped. -/
theorem reaction_classification_counterexample :
    classify 7 [["e"], ["e", "x"]] = ClassifyResult.drop ∧
    ["e", "x"] ∈ [["e"], ["e", "x"]] ∧
    ["e", "x"].get? 0 = some "e" ∧ ["e", "x"].get? 1 = some "x" ∧
    dynamicRecord "t0" ev7_bare ≠ none := by decide

/-- C2 amended: on the primary path a kind-7 event is classified by the
first tag whose first element is "e": if that tag has second element X the
event is stored as (reactions, X); if it lacks a second element, or no
"e"-named tag exists, the event is dropped and handling stores nothing.
On a dynamic session every kind-7 event is stored as a reaction whose
reference is the session's target identifier, regardless of its tags. -/
theorem classify_reaction_first_e_tag (pre post : List (List String))
    (t : List String) (x target : String) (io_ok : Bool) (st : RunState)
    (ev : NostrEvent)
    (hpre : ∀ u ∈ pre, isETag u = false) (ht : isETag t = true) :
    (t.get? 1 = some x →
      classify 7 (pre ++ t :: post) = ClassifyResult.store "reactions" (some x)) ∧
    (t.get? 1 = none → classify 7 (pre ++ t :: post) = ClassifyResult.drop) ∧
    classify 7 pre = ClassifyResult.drop ∧
    (classify ev.kind ev.tags = ClassifyResult.drop →
      handle_event_primary io_ok st ev = st) ∧
    (ev.kind = 7 →
      dynamicRecord target ev = some (mk_db_event ev "reactions" (some target))) := by
  have hfind : findETag (pre ++ t :: post) = some t := by
    rw [findETag_skip_front pre (t :: post) hpre, findETag_cons_true t post ht]
  have hnone := findETag_eq_none pre hpre
  refine ⟨?_, ?_, ?_, ?_, ?_⟩
  · intro hx; rw [List.get?_eq_getElem?] at hx; simp [classify, hfind, hx]
  · intro hx; rw [List.get?_eq_getElem?] at hx; simp [classify, hfind, hx]
  · simp [classify, hnone]
  · intro hdrop; simp [handle_event_primary, primaryRecord, hdrop]
  · intro hk; simp [dynamicRecord, dynamic_folder, hk]

/-- Witness for C2 at concrete inputs. -/
theorem classify_reaction_first_e_tag_witness :
    (∀ u ∈ [["p", "q"]], isETag u = false) ∧ isETag ["e", "x"] = true ∧
    ((["e", "x"].get? 1 = some "x" →
        classify 7 ([["p", "q"]] ++ ["e", "x"] :: []) =
          ClassifyResult.store "reactions" (some "x")) ∧
     (["e", "x"].get? 1 = none →
        classify 7 ([["p", "q"]] ++ ["e", "x"] :: []) = ClassifyResult.drop) ∧
     classify 7 [["p", "q"]] = ClassifyResult.drop ∧
     (classify ev7_bare.kind ev7_bare.tags = ClassifyResult.drop →
        handle_event_primary true { store := [], spawned := [] } ev7_bare =
          { store := [], spawned := [] }) ∧
     (ev7_bare.kind = 7 →
        dynamicRecord "t0" ev7_bare =
          some (mk_db_event ev7_bare "reactions" (some "t0")))) :=
  ⟨by decide, by decide,
    classify_reaction_first_e_tag [["p", "q"]] [] ["e", "x"] "x" "t0" true
      { store := [], spawned := [] } ev7_bare (by decide) (by decide)⟩

/-! Dynamic-expansion lemmas. -/

theorem spawn_targets_eq (ev : NostrEvent) :
    spawn_targets ev =
      (if ev.kind = 1 ∨ ev.kind = 30023 ∨ ev.kind = 30024 then [ev.id] else []) := by
  unfold spawn_targets
  by_cases h1 : ev.kind = 1
  · simp [h1]
  · by_cases h2 : ev.kind = 30023 ∨ ev.kind = 30024
    · simp [h1, h2]
    · simp [h1, h2]

theorem primaryRecord_isSome_of_spawn_kind (ev : NostrEvent)
    (h : ev.kind = 1 ∨ ev.kind = 30023 ∨ ev.kind = 30024) :
    primaryRecord ev ≠ none := by
  rcases h with h | h | h
  · simp only [primaryRecord, classify, h]
    cases hf : findETag ev.tags with
    | none => simp
    | some t => cases ht : t[1]? <;> simp [ht]
  · simp [primaryRecord, classify, h]
  · simp [primaryRecord, classify, h]

/-- C3 counterexample: the claim fails as stated.  A kind-1 event carrying
an "e"-named tag is classified as a reply (folder "replies", not a primary
category), yet handling it does spawn a dynamic expansion for its
identifier, because the spawn test in the code checks event.kind == 1, not
the classified category. -/
theorem expansion_on_reply_counterexample :
    (primaryRecord
        { id := "id1", pubkey := "p", created_at := 0, kind := 1,
          tags := [["e", "parent"]], content := "c", sig := "s" }).map DbEvent.folder =
      some "replies" ∧
    (handle_event_primary true { store := [], spawned := [] }
        { id := "id1", pubkey := "p", created_at := 0, kind := 1,
          tags := [["e", "parent"]], content := "c", sig := "s" }).spawned =
      ["id1"] := by decide

/-- C3 amended: the primary loop spawns a reference-scoped secondary
session for an event exactly when the event's kind is 1, 30023 or 30024 —
so kind-1 events classified as replies also trigger expansion — and never
for reaction, zap or user-metadata events; a dynamic session never spawns
anything. -/
theorem expansion_spawn_condition (io_ok : Bool) (st : RunState)
    (ev : NostrEvent) (target : String) :
    (handle_event_primary io_ok st ev).spawned =
      st.spawned ++
        (if ev.kind = 1 ∨ ev.kind = 30023 ∨ ev.kind = 30024 then [ev.id] else []) ∧
    (handle_event_dynamic target io_ok st ev).spawned = st.spawned := by
  constructor
  · cases hp : primaryRecord ev with
    | some r => simp [handle_event_primary, hp, spawn_targets_eq]
    | none =>
      have hns : ¬(ev.kind = 1 ∨ ev.kind = 30023 ∨ ev.kind = 30024) :=
        fun h => primaryRecord_isSome_of_spawn_kind ev h hp
      simp [handle_event_primary, hp, hns]
  · cases hd : dynamicRecord target ev <;> simp [handle_event_dynamic, hd]

/-- Kind-7 event whose own "e" tag names a different event than the dynamic
session's target, used by the C1 counterexample. -/
def ev7_tagged : NostrEvent :=
  { id := "e9", pubkey := "p", created_at := 0, kind := 7,
    tags := [["e", "orig"]], content := "+", sig := "s" }

/-- C1 counterexample: the claim fails as stated.  For a kind-7 event whose
own "e" tag references "orig", received on a dynamic session targeting
"t0", the dynamic pipeline stores reference "t0" (the subscription target)
while the primary classify-then-store pipeline would store reference "orig"
(extracted from the event's tags): the records differ. -/
theorem dynamic_record_counterexample :
    dynamicRecord "t0" ev7_tagged ≠ primaryRecord ev7_tagged ∧
    (dynamicRecord "t0" ev7_tagged).map DbEvent.ref_event = some (some "t0") ∧
    (primaryRecord ev7_tagged).map DbEvent.ref_event = some (some "orig") := by decide

theorem handle_event_dynamic_spawned (target : String) (io_ok : Bool)
    (st : RunState) (ev : NostrEvent) :
    (handle_event_dynamic target io_ok st ev).spawned = st.spawned := by
  cases hd : dynamicRecord target ev <;> simp [handle_event_dynamic, hd]

theorem dynamic_listen_spawned (target : String) (ioSeq : Nat → Bool)
    (st : RunState) (msgs : List WsMessage) :
    (dynamic_listen_to_relay target ioSeq st msgs).spawned = st.spawned := by
  induction msgs generalizing ioSeq st with
  | nil => rfl
  | cons m ms ih =>
    show (listen_loop (handle_event_dynamic target) ioSeq st (m :: ms)).spawned = _
    rw [listen_loop]
    cases hd : decode_relay_message m with
    | error u => rfl
    | ok o =>
      cases o with
      | none => exact ih _ _
      | some ev =>
        rw [show (listen_loop (handle_event_dynamic target)
              (fun n => ioSeq (n + 1))
              (handle_event_dynamic target (ioSeq 0) st ev) ms).spawned =
            (handle_event_dynamic target (ioSeq 0) st ev).spawned from ih _ _]
        exact handle_event_dynamic_spawned target (ioSeq 0) st ev

/-- C1 amended: an event received on a dynamically spawned secondary
session is classified by kind alone — kind 7 is stored in "reactions",
kinds 9734 and 9735 in "zaps", every other kind is dropped — and the
stored reference is always the session's target identifier rather than a
value extracted from the event's own tags; moreover a secondary session
never triggers further dynamic expansion. -/
theorem dynamic_session_behavior (target : String) (ev : NostrEvent)
    (ioSeq : Nat → Bool) (st : RunState) (msgs : List WsMessage) :
    dynamicRecord target ev =
      (if ev.kind = 7 then some (mk_db_event ev "reactions" (some target))
       else if ev.kind = 9734 ∨ ev.kind = 9735 then
         some (mk_db_event ev "zaps" (some target))
       else none) ∧
    (dynamic_listen_to_relay target ioSeq st msgs).spawned = st.spawned := by
  refine ⟨?_, dynamic_listen_spawned target ioSeq st msgs⟩
  unfold dynamicRecord dynamic_folder
  split_ifs <;> rfl

/-- C6: every reference-scoped secondary subscription request is the array
REQ, subscription id, filter, where the filter object's "kinds" field is
exactly the list 7, 9734, 9735, its "#e" field is exactly the one-element
list holding the target identifier, and it has no other field.  The
builder takes no kind-set argument at all, so the globally configured
kinds cannot influence it. -/
theorem dynamic_filter_shape (subscription_id target_id : String) :
    ∃ filter_obj : Json,
      dynamic_req_message subscription_id target_id =
        Json.arr [Json.str "REQ", Json.str subscription_id, filter_obj] ∧
      filter_obj.getField "kinds" =
        some (Json.arr [Json.num 7, Json.num 9734, Json.num 9735]) ∧
      filter_obj.getField "#e" = some (Json.arr [Json.str target_id]) ∧
      (∀ key : String, filter_obj.getField key ≠ none →
        key = "kinds" ∨ key = "#e") := by
  refine ⟨_, rfl, rfl, rfl, ?_⟩
  intro key h
  by_cases h1 : key = "kinds"
  · exact Or.inl h1
  by_cases h2 : key = "#e"
  · exact Or.inr h2
  exfalso
  apply h
  have h1' : (("kinds" : String) == key) = false := by
    simp only [beq_eq_false_iff_ne, ne_eq]
    exact fun hh => h1 hh.symm
  have h2' : (("#e" : String) == key) = false := by
    simp only [beq_eq_false_iff_ne, ne_eq]
    exact fun hh => h2 hh.symm
  simp [Json.getField, List.find?, h1', h2']

/-- Configuration used by the C7 counterexample: the operator asks for kind
0 only. -/
def cfg0 : AppConfig :=
  { server := { bind_address := "127.0.0.1:8080" }
    relays := { urls := ["wss://relay.example"] }
    event := { kinds := [0] }
    database := { path := "events.db" } }

/-- C7 counterexample: the claim fails as stated.  With configured kinds
[0], the initial subscriptions do not cover kind 0 at all, and they do
cover kind 1, which the configuration never asked for: the initial filters
are not built from the configuration's kinds. -/
theorem initial_subscription_ignores_config_counterexample :
    (0 : Nat) ∈ cfg0.event.kinds ∧
    ("wss://relay.example", (0 : Nat)) ∉ initial_subscriptions cfg0 ∧
    (1 : Nat) ∉ cfg0.event.kinds ∧
    ("wss://relay.example", (1 : Nat)) ∈ initial_subscriptions cfg0 := by decide

/-- C7 amended: for every configuration, the initial subscriptions are one
per (relay URL, kind) pair with the kind drawn from the hardcoded list
1, 30023, 30024; exactly these kinds are covered on each configured relay,
and the configuration's kinds field plays no role. -/
theorem initial_subscription_kinds (config : AppConfig) (url : String) (k : Nat) :
    (url, k) ∈ initial_subscriptions config ↔
      url ∈ config.relays.urls ∧ (k = 1 ∨ k = 30023 ∨ k = 30024) := by
  simp only [initial_subscriptions, List.mem_flatMap, List.mem_map,
    global_event_kinds]
  constructor
  · rintro ⟨u, hu, kk, hkk, hpair⟩
    obtain ⟨rfl, rfl⟩ := Prod.mk.injEq .. ▸ hpair
    refine ⟨hu, ?_⟩
    simpa using hkk
  · rintro ⟨hu, hk⟩
    exact ⟨url, hu, k, by simpa using hk, rfl⟩

/-! Session termination and continuation lemmas. -/

/-- The two parse-failure shapes of the claim: a text payload that is not
valid JSON, or an EVENT-shaped array whose third element does not
deserialize into a NostrEvent. -/
def parse_failure (m : WsMessage) : Prop :=
  m = WsMessage.text none ∨
  ∃ (second third : Json) (rest : List Json),
    m = WsMessage.text (some (Json.arr (Json.str "EVENT" :: second :: third :: rest))) ∧
    NostrEvent.fromJson third = none

theorem decode_fatal_of_parse_failure (m : WsMessage) (h : parse_failure m) :
    decode_fatal m = true := by
  rcases h with h | ⟨second, third, rest, hm, hj⟩
  · subst h; rfl
  · subst hm
    simp [decode_fatal, decode_relay_message, hj]

theorem listen_loop_stops_on_fatal
    (handle : Bool → RunState → NostrEvent → RunState) (ioSeq : Nat → Bool)
    (st : RunState) (msgs rest : List WsMessage) (m : WsMessage)
    (hok : ∀ x ∈ msgs, decode_fatal x = false) (hm : decode_fatal m = true) :
    listen_loop handle ioSeq st (msgs ++ m :: rest) =
      listen_loop handle ioSeq st (msgs ++ [m]) ∧
    (listen_loop handle ioSeq st (msgs ++ m :: rest)).ended = SessionEnd.errored := by
  induction msgs generalizing ioSeq st with
  | nil =>
    have herr : decode_relay_message m = Except.error () := by
      unfold decode_fatal at hm
      cases hd : decode_relay_message m with
      | error u => cases u; rfl
      | ok o => rw [hd] at hm; simp at hm
    constructor <;> simp [listen_loop, herr]
  | cons a as ih =>
    have hok' : ∀ x ∈ as, decode_fatal x = false := fun x hx => hok x (by simp [hx])
    cases hd : decode_relay_message a with
    | error u =>
      have ha : decode_fatal a = true := by unfold decode_fatal; rw [hd]
      rw [hok a (by simp)] at ha
      exact absurd ha (by simp)
    | ok o =>
      cases o with
      | none =>
        have tail := ih (fun n => ioSeq (n + 1)) st hok'
        refine ⟨?_, ?_⟩
        · simp only [List.cons_append, listen_loop, hd]
          exact tail.1
        · simp only [List.cons_append, listen_loop, hd]
          exact tail.2
      | some ev =>
        have tail := ih (fun n => ioSeq (n + 1)) (handle (ioSeq 0) st ev) hok'
        refine ⟨?_, ?_⟩
        · simp only [List.cons_append, listen_loop, hd]
          exact tail.1
        · simp only [List.cons_append, listen_loop, hd]
          exact tail.2

/-- C8: on every relay session — primary or dynamic — a text message that
is not valid JSON, or an EVENT-shaped message whose third element does not
deserialize into an event, terminates the read loop: the session ends in
the errored state and the messages after the malformed one are never
processed (the run equals the run truncated right after it). -/
theorem malformed_message_fatal (ioSeq : Nat → Bool) (st : RunState)
    (msgs rest : List WsMessage) (m : WsMessage) (target : String)
    (hok : ∀ x ∈ msgs, decode_fatal x = false) (hm : parse_failure m) :
    (listen_to_relay_for_kind ioSeq st (msgs ++ m :: rest) =
       listen_to_relay_for_kind ioSeq st (msgs ++ [m]) ∧
     (listen_to_relay_for_kind ioSeq st (msgs ++ m :: rest)).ended =
       SessionEnd.errored) ∧
    (dynamic_listen_to_relay target ioSeq st (msgs ++ m :: rest) =
       dynamic_listen_to_relay target ioSeq st (msgs ++ [m]) ∧
     (dynamic_listen_to_relay target ioSeq st (msgs ++ m :: rest)).ended =
       SessionEnd.errored) := by
  have hf := decode_fatal_of_parse_failure m hm
  exact ⟨listen_loop_stops_on_fatal handle_event_primary ioSeq st msgs rest m hok hf,
    listen_loop_stops_on_fatal (handle_event_dynamic target) ioSeq st msgs rest m hok hf⟩

/-- Witness for C8 at concrete inputs: one harmless control frame, then an
invalid-JSON text frame, then a further frame that must never be reached. -/
theorem malformed_message_fatal_witness :
    (∀ x ∈ [WsMessage.control], decode_fatal x = false) ∧
    parse_failure (WsMessage.text none) ∧
    ((listen_to_relay_for_kind (fun _ => true) { store := [], spawned := [] }
        ([WsMessage.control] ++ WsMessage.text none :: [WsMessage.control]) =
       listen_to_relay_for_kind (fun _ => true) { store := [], spawned := [] }
        ([WsMessage.control] ++ [WsMessage.text none]) ∧
      (listen_to_relay_for_kind (fun _ => true) { store := [], spawned := [] }
        ([WsMessage.control] ++ WsMessage.text none :: [WsMessage.control])).ended =
       SessionEnd.errored) ∧
     (dynamic_listen_to_relay "t0" (fun _ => true) { store := [], spawned := [] }
        ([WsMessage.control] ++ WsMessage.text none :: [WsMessage.control]) =
       dynamic_listen_to_relay "t0" (fun _ => true) { store := [], spawned := [] }
        ([WsMessage.control] ++ [WsMessage.text none]) ∧
      (dynamic_listen_to_relay "t0" (fun _ => true) { store := [], spawned := [] }
        ([WsMessage.control] ++ WsMessage.text none :: [WsMessage.control])).ended =
       SessionEnd.errored)) :=
  ⟨by decide, Or.inl rfl,
    malformed_message_fatal (fun _ => true) { store := [], spawned := [] }
      [WsMessage.control] [WsMessage.control] (WsMessage.text none) "t0"
      (by decide) (Or.inl rfl)⟩

/-- An EVENT-shaped relay message carrying the given subscription id and
event object. -/
def event_message (sub : String) (j : Json) : WsMessage :=
  WsMessage.text (some (Json.arr [Json.str "EVENT", Json.str sub, j]))

/-- C9: when the insert issued for an event fails for a non-duplicate
reason (the statement execution errors), the table is left unchanged —
that single event is lost — and the read loop goes on to process the
remaining messages: the run on the rest proceeds from a state whose store
equals the store before the failing event, and the session does not
terminate on account of the failure. -/
theorem insert_failure_continues (ioSeq : Nat → Bool) (st : RunState)
    (sub : String) (j : Json) (ev : NostrEvent) (rest : List WsMessage)
    (hio : ioSeq 0 = false) (hj : NostrEvent.fromJson j = some ev) :
    ∃ st' : RunState,
      listen_to_relay_for_kind ioSeq st (event_message sub j :: rest) =
        listen_to_relay_for_kind (fun n => ioSeq (n + 1)) st' rest ∧
      st'.store = st.store := by
  refine ⟨handle_event_primary (ioSeq 0) st ev, ?_, ?_⟩
  · have hd : decode_relay_message (event_message sub j) = Except.ok (some ev) := by
      simp [decode_relay_message, event_message, hj]
    simp only [listen_to_relay_for_kind, listen_loop, hd]
  · rw [hio]
    cases hp : primaryRecord ev <;> simp [handle_event_primary, hp]

/-- JSON event object used by the C9 and C10 witnesses. -/
def jEv1 : Json :=
  Json.obj [("id", Json.str "e1"), ("pubkey", Json.str "p1"),
    ("created_at", Json.num 100), ("kind", Json.num 1),
    ("tags", Json.arr []), ("content", Json.str "hi"), ("sig", Json.str "s")]

/-- The NostrEvent that jEv1 deserializes to. -/
def evC9 : NostrEvent :=
  { id := "e1", pubkey := "p1", created_at := 100, kind := 1, tags := [],
    content := "hi", sig := "s" }

/-- Witness for C9 at concrete inputs: the first insert fails, the loop
continues into the (empty) remainder of the stream. -/
theorem insert_failure_continues_witness :
    (fun (_ : Nat) => false) 0 = false ∧
    NostrEvent.fromJson jEv1 = some evC9 ∧
    ∃ st' : RunState,
      listen_to_relay_for_kind (fun _ => false) { store := [], spawned := [] }
          (event_message "sub1" jEv1 :: []) =
        listen_to_relay_for_kind (fun n => (fun (_ : Nat) => false) (n + 1)) st' [] ∧
      st'.store = ({ store := [], spawned := [] } : RunState).store :=
  ⟨rfl, by decide,
    insert_failure_continues (fun _ => false) { store := [], spawned := [] }
      "sub1" jEv1 evC9 [] rfl (by decide)⟩

/-! The folder/reference invariant. -/

/-- The invariant claimed over persisted records: replies and reactions
always carry a reference, users, notes and long never do. -/
def goodRecord (r : DbEvent) : Prop :=
  ((r.folder = "replies" ∨ r.folder = "reactions") → r.ref_event ≠ none) ∧
  ((r.folder = "users" ∨ r.folder = "notes" ∨ r.folder = "long") → r.ref_event = none)

theorem classify_good (kind : Nat) (tags : List (List String))
    (folder : String) (ref_event : Option String)
    (h : classify kind tags = ClassifyResult.store folder ref_event) :
    ((folder = "replies" ∨ folder = "reactions") → ref_event ≠ none) ∧
    ((folder = "users" ∨ folder = "notes" ∨ folder = "long") → ref_event = none) := by
  unfold classify at h
  split_ifs at h <;> (try split at h) <;> (try split at h) <;>
    first
      | (obtain ⟨rfl, rfl⟩ := ClassifyResult.store.inj h
         exact ⟨by simp, by simp⟩)
      | cases h

theorem primaryRecord_good (ev : NostrEvent) (r : DbEvent)
    (h : primaryRecord ev = some r) : goodRecord r := by
  unfold primaryRecord at h
  cases hc : classify ev.kind ev.tags with
  | drop => rw [hc] at h; cases h
  | store folder ref_event =>
    rw [hc] at h
    obtain rfl := Option.some.inj h
    exact classify_good ev.kind ev.tags folder ref_event hc

theorem dynamicRecord_good (target : String) (ev : NostrEvent) (r : DbEvent)
    (h : dynamicRecord target ev = some r) : goodRecord r := by
  unfold dynamicRecord dynamic_folder at h
  split_ifs at h
  · have h' : some (mk_db_event ev "reactions" (some target)) = some r := h
    obtain rfl := Option.some.inj h'
    exact ⟨by simp [mk_db_event], by simp [mk_db_event]⟩
  · have h' : some (mk_db_event ev "zaps" (some target)) = some r := h
    obtain rfl := Option.some.inj h'
    exact ⟨by simp [mk_db_event], by simp [mk_db_event]⟩
  · have h' : (none : Option DbEvent) = some r := h
    cases h'

theorem put_all_good (s : Store) (r : DbEvent)
    (h : ∀ x ∈ s, goodRecord x) (hr : goodRecord r) :
    ∀ x ∈ (put s r).fst, goodRecord x := by
  unfold put
  split
  · exact h
  · intro x hx
    rcases List.mem_append.mp hx with hx | hx
    · exact h x hx
    · rw [List.mem_singleton.mp hx]
      exact hr

theorem handle_primary_good (io_ok : Bool) (st : RunState) (ev : NostrEvent)
    (h : ∀ x ∈ st.store, goodRecord x) :
    ∀ x ∈ (handle_event_primary io_ok st ev).store, goodRecord x := by
  cases hp : primaryRecord ev with
  | none => simpa [handle_event_primary, hp] using h
  | some r =>
    have hr := primaryRecord_good ev r hp
    simp only [handle_event_primary, hp]
    cases io_ok with
    | true => simpa using put_all_good st.store r h hr
    | false => simpa using h

theorem handle_dynamic_good (target : String) (io_ok : Bool) (st : RunState)
    (ev : NostrEvent) (h : ∀ x ∈ st.store, goodRecord x) :
    ∀ x ∈ (handle_event_dynamic target io_ok st ev).store, goodRecord x := by
  cases hp : dynamicRecord target ev with
  | none => simpa [handle_event_dynamic, hp] using h
  | some r =>
    have hr := dynamicRecord_good target ev r hp
    simp only [handle_event_dynamic, hp]
    cases io_ok with
    | true => simpa using put_all_good st.store r h hr
    | false => simpa using h

theorem listen_loop_good (handle : Bool → RunState → NostrEvent → RunState)
    (hh : ∀ io_ok st ev, (∀ x ∈ RunState.store st, goodRecord x) →
      ∀ x ∈ (handle io_ok st ev).store, goodRecord x)
    (ioSeq : Nat → Bool) (st : RunState) (msgs : List WsMessage)
    (h : ∀ x ∈ st.store, goodRecord x) :
    ∀ x ∈ (listen_loop handle ioSeq st msgs).store, goodRecord x := by
  induction msgs generalizing ioSeq st with
  | nil => exact h
  | cons m ms ih =>
    cases hd : decode_relay_message m with
    | error u => simpa [listen_loop, hd] using h
    | ok o =>
      cases o with
      | none => simpa [listen_loop, hd] using ih (fun n => ioSeq (n + 1)) st h
      | some ev =>
        simpa [listen_loop, hd] using
          ih (fun n => ioSeq (n + 1)) (handle (ioSeq 0) st ev)
            (hh (ioSeq 0) st ev h)

/-- C10: the folder/reference invariant is preserved by every ingestion
path.  Starting from any table whose records satisfy it, after a primary
session or a dynamic session processes any message stream, every persisted
record whose folder is "replies" or "reactions" carries a non-null
reference and every record whose folder is "users", "notes" or "long"
carries a null reference. -/
theorem persisted_record_reference_invariant (ioSeq : Nat → Bool)
    (st : RunState) (msgs : List WsMessage) (target : String)
    (h : ∀ x ∈ st.store, goodRecord x) :
    (∀ x ∈ (listen_to_relay_for_kind ioSeq st msgs).store, goodRecord x) ∧
    (∀ x ∈ (dynamic_listen_to_relay target ioSeq st msgs).store, goodRecord x) :=
  ⟨listen_loop_good handle_event_primary handle_primary_good ioSeq st msgs h,
    listen_loop_good (handle_event_dynamic target) (handle_dynamic_good target)
      ioSeq st msgs h⟩

/-- Witness for C10 at concrete inputs: empty table, one stored event. -/
theorem persisted_record_reference_invariant_witness :
    (∀ x ∈ ({ store := [], spawned := [] } : RunState).store, goodRecord x) ∧
    (∀ x ∈ (listen_to_relay_for_kind (fun _ => true) { store := [], spawned := [] }
        [event_message "sub1" jEv1]).store, goodRecord x) :=
  ⟨by simp,
    (persisted_record_reference_invariant (fun _ => true)
      { store := [], spawned := [] } [event_message "sub1" jEv1] "t0" (by simp)).1⟩

end Chest
